import Mathlib

/-!
Verification of the EXIF extraction and geodesy core of the property-map
repository.

The byte-level source (`extractExifData`, `parseExifData`, `parseIfd0`,
`parseDateFromExifIfd`, `parseGpsIfd`, `readGpsRationals`, `readExifDate`,
`gpsToDecimal`, `stripExifData`) is embedded over `List Nat` byte buffers.
JavaScript `DataView` reads that can throw a `RangeError` are modelled as
`Option`-valued readers; each source function's own `try/catch` block is
modelled by turning a `none` read into the value the corresponding `catch`
handler produces (the state accumulated so far, since the source mutates a
result object in place inside the `try`).  JavaScript numbers are idealized
as `ℚ` for the parser and as `ℝ` for the trigonometric bearing helper.
-/

/-- A byte buffer cell, as stored in a JS `ArrayBuffer`, is one byte; reads
normalize modulo 256 so that every `List Nat` denotes a valid buffer. -/
def getUint8? (buf : List Nat) (off : Nat) : Option Nat :=
  (buf.get? off).map (fun b => b % 256)

/-- `DataView.getUint16(off, littleEndian)`: two bytes, `none` when the read
would be out of bounds (a thrown `RangeError` in the source). -/
def getUint16? (buf : List Nat) (off : Nat) (littleEndian : Bool) : Option Nat :=
  match getUint8? buf off, getUint8? buf (off + 1) with
  | some b0, some b1 => some (if littleEndian then b1 * 256 + b0 else b0 * 256 + b1)
  | _, _ => none

/-- `DataView.getUint32(off, littleEndian)`: four bytes, `none` on an
out-of-bounds read. -/
def getUint32? (buf : List Nat) (off : Nat) (littleEndian : Bool) : Option Nat :=
  match getUint8? buf off, getUint8? buf (off + 1),
      getUint8? buf (off + 2), getUint8? buf (off + 3) with
  | some b0, some b1, some b2, some b3 =>
    some (if littleEndian then ((b3 * 256 + b2) * 256 + b1) * 256 + b0
          else ((b0 * 256 + b1) * 256 + b2) * 256 + b3)
  | _, _, _, _ => none

/-- The `ExifData` record produced by extraction: every field is optional
(`null` in the source). -/
structure ExifData where
  latitude : Option ℚ
  longitude : Option ℚ
  bearing : Option ℚ
  dateTaken : Option String
deriving Repr, DecidableEq

/-- The all-`null` result the source initializes and falls back to. -/
def allAbsent : ExifData :=
  { latitude := none, longitude := none, bearing := none, dateTaken := none }

/-- The input to `extractExifData`: a `File` with a name, a declared MIME
type, and its byte content. -/
structure FileModel where
  name : String
  type : String
  bytes : List Nat
deriving Repr, DecidableEq

/-- JavaScript string truthiness for `string | null` values: `null` and the
empty string are falsy. -/
def strTruthy : Option String → Bool
  | none => false
  | some s => s ≠ ""

/-- A byte is an ASCII digit (what `\d` matches in the source's date regex). -/
def isDigitByte (c : Nat) : Bool := 48 ≤ c && c ≤ 57

/-- The date regex of `readExifDate`: the pattern `Y Y Y Y : M M : D D space
H H : M M : S S` is 19 characters, and the scanned string is at most 19
characters, so the unanchored JS regex matches exactly when all 19 collected
bytes fit the pattern; on a match the source rebuilds
`YYYY-MM-DDTHH:MM:SSZ`. -/
def formatExifDate : List Nat → Option String
  | [y1, y2, y3, y4, c1, mo1, mo2, c2, d1, d2, sp, h1, h2, c3, mi1, mi2, c4, s1, s2] =>
    if isDigitByte y1 && isDigitByte y2 && isDigitByte y3 && isDigitByte y4 &&
        c1 == 58 && isDigitByte mo1 && isDigitByte mo2 && c2 == 58 &&
        isDigitByte d1 && isDigitByte d2 && sp == 32 &&
        isDigitByte h1 && isDigitByte h2 && c3 == 58 &&
        isDigitByte mi1 && isDigitByte mi2 && c4 == 58 &&
        isDigitByte s1 && isDigitByte s2 then
      some (String.mk [Char.ofNat y1, Char.ofNat y2, Char.ofNat y3, Char.ofNat y4, '-',
        Char.ofNat mo1, Char.ofNat mo2, '-', Char.ofNat d1, Char.ofNat d2, 'T',
        Char.ofNat h1, Char.ofNat h2, ':', Char.ofNat mi1, Char.ofNat mi2, ':',
        Char.ofNat s1, Char.ofNat s2, 'Z'])
    else none
  | _ => none

/-- The byte-collection loop of `readExifDate`: up to 19 bytes starting at
`offset`, stopping early at a zero byte; `none` models an out-of-bounds read
(thrown, and caught by `readExifDate` itself). -/
def readDateBytes (buf : List Nat) (offset : Nat) : Nat → Nat → Option (List Nat)
  | 0, _ => some []
  | n + 1, i =>
    match getUint8? buf (offset + i) with
    | none => none
    | some 0 => some []
    | some c => (readDateBytes buf offset n (i + 1)).map (fun rest => c :: rest)

/-- `readExifDate`: reads an EXIF date string and converts it to ISO format;
total, since the source catches its own exceptions and returns `null`. -/
def readExifDate (buf : List Nat) (offset : Nat) : Option String :=
  match readDateBytes buf offset 19 0 with
  | none => none
  | some cs => formatExifDate cs

/-- `gpsToDecimal`: degrees/minutes/seconds to decimal degrees, negated for
the `'S'` and `'W'` hemisphere references. -/
def gpsToDecimal (degrees minutes seconds : ℚ) (ref : String) : ℚ :=
  let decimal := degrees + minutes / 60 + seconds / 3600
  if ref = "S" ∨ ref = "W" then -decimal else decimal

/-- One rational read of `readGpsRationals`: numerator and denominator are
consecutive uint32 values; a zero denominator contributes 0. -/
def readRational? (buf : List Nat) (off : Nat) (le : Bool) : Option ℚ :=
  match getUint32? buf off le, getUint32? buf (off + 4) le with
  | some num, some den => some (if den ≠ 0 then (num : ℚ) / (den : ℚ) else 0)
  | _, _ => none

/-- `readGpsRationals`: the three DMS rationals at 8-byte stride; `none`
models an exception escaping to the caller's `catch`. -/
def readGpsRationals (buf : List Nat) (off : Nat) (le : Bool) : Option (ℚ × ℚ × ℚ) :=
  match readRational? buf off le, readRational? buf (off + 8) le,
      readRational? buf (off + 16) le with
  | some a, some b, some c => some (a, b, c)
  | _, _, _ => none

/-- The local state of the `parseGpsIfd` entry loop: hemisphere references,
DMS value triples, and the bearing written into the result object so far. -/
structure GpsScanState where
  latRef : Option String
  lngRef : Option String
  latValues : Option (ℚ × ℚ × ℚ)
  lngValues : Option (ℚ × ℚ × ℚ)
  bearing : Option ℚ
deriving Repr, DecidableEq

/-- The entry loop of `parseGpsIfd` over 12-byte IFD entries.  The returned
flag is `true` when a read threw: the source's `catch` then keeps the result
object's fields written so far (only `bearing`) and the conversion step after
the loop is skipped. -/
def gpsScan (buf : List Nat) (ifdOffset tiffOffset : Nat) (le : Bool) :
    Nat → Nat → GpsScanState → GpsScanState × Bool
  | 0, _, s => (s, false)
  | n + 1, i, s =>
    let entryOffset := ifdOffset + 2 + i * 12
    match getUint16? buf entryOffset le, getUint16? buf (entryOffset + 2) le,
        getUint32? buf (entryOffset + 4) le with
    | some tag, some ty, some cnt =>
      if tag = 0x0001 then
        match getUint8? buf (entryOffset + 8) with
        | none => (s, true)
        | some b =>
          gpsScan buf ifdOffset tiffOffset le n (i + 1)
            { s with latRef := some (String.mk [Char.ofNat b]) }
      else if tag = 0x0003 then
        match getUint8? buf (entryOffset + 8) with
        | none => (s, true)
        | some b =>
          gpsScan buf ifdOffset tiffOffset le n (i + 1)
            { s with lngRef := some (String.mk [Char.ofNat b]) }
      else if tag = 0x0002 ∧ ty = 5 ∧ cnt = 3 then
        match getUint32? buf (entryOffset + 8) le with
        | none => (s, true)
        | some valueOffset =>
          match readGpsRationals buf (tiffOffset + valueOffset) le with
          | none => (s, true)
          | some v =>
            gpsScan buf ifdOffset tiffOffset le n (i + 1) { s with latValues := some v }
      else if tag = 0x0004 ∧ ty = 5 ∧ cnt = 3 then
        match getUint32? buf (entryOffset + 8) le with
        | none => (s, true)
        | some valueOffset =>
          match readGpsRationals buf (tiffOffset + valueOffset) le with
          | none => (s, true)
          | some v =>
            gpsScan buf ifdOffset tiffOffset le n (i + 1) { s with lngValues := some v }
      else if tag = 0x0011 ∧ ty = 5 then
        match getUint32? buf (entryOffset + 8) le with
        | none => (s, true)
        | some valueOffset =>
          match getUint32? buf (tiffOffset + valueOffset) le,
              getUint32? buf (tiffOffset + valueOffset + 4) le with
          | some num, some den =>
            if den ≠ 0 then
              gpsScan buf ifdOffset tiffOffset le n (i + 1)
                { s with bearing := some ((num : ℚ) / (den : ℚ)) }
            else gpsScan buf ifdOffset tiffOffset le n (i + 1) s
          | _, _ => (s, true)
      else gpsScan buf ifdOffset tiffOffset le n (i + 1) s
    | _, _, _ => (s, true)

/-- `parseGpsIfd`: scans the GPS IFD and, when the scan completed without a
thrown read, converts each axis whose reference and 3-rational value were
both captured.  A one-character reference string is always truthy in JS, so
truthiness of `latRef`/`latValues` is exactly `Option.isSome` here. -/
def parseGpsIfd (buf : List Nat) (ifdOffset tiffOffset : Nat) (le : Bool) : ExifData :=
  match getUint16? buf ifdOffset le with
  | none => allAbsent
  | some entryCount =>
    match gpsScan buf ifdOffset tiffOffset le entryCount 0 ⟨none, none, none, none, none⟩ with
    | (s, true) => { latitude := none, longitude := none, bearing := s.bearing, dateTaken := none }
    | (s, false) =>
      { latitude :=
          (match s.latValues, s.latRef with
           | some v, some r => some (gpsToDecimal v.1 v.2.1 v.2.2 r)
           | _, _ => none),
        longitude :=
          (match s.lngValues, s.lngRef with
           | some v, some r => some (gpsToDecimal v.1 v.2.1 v.2.2 r)
           | _, _ => none),
        bearing := s.bearing,
        dateTaken := none }

/-- The first entry loop of `parseIfd0`: captures the GPS IFD pointer
(0x8825, last one wins) and a date from an IFD0 date tag (0x9003/0x9004,
last one wins, even overwriting with `null`).  The flag is `true` when a
read threw; `parseIfd0`'s `catch` then returns the state captured so far
and the second loop never runs. -/
def ifd0Scan (buf : List Nat) (ifdOffset tiffOffset : Nat) (le : Bool) :
    Nat → Nat → Option Nat → Option String → (Option Nat × Option String) × Bool
  | 0, _, gps, date => ((gps, date), false)
  | n + 1, i, gps, date =>
    let entryOffset := ifdOffset + 2 + i * 12
    match getUint16? buf entryOffset le with
    | none => ((gps, date), true)
    | some tag =>
      if tag = 0x8825 then
        match getUint32? buf (entryOffset + 8) le with
        | none => ((gps, date), true)
        | some v => ifd0Scan buf ifdOffset tiffOffset le n (i + 1) (some v) date
      else if tag = 0x9003 ∨ tag = 0x9004 then
        match getUint32? buf (entryOffset + 8) le with
        | none => ((gps, date), true)
        | some valueOffset =>
          ifd0Scan buf ifdOffset tiffOffset le n (i + 1) gps
            (readExifDate buf (tiffOffset + valueOffset))
      else ifd0Scan buf ifdOffset tiffOffset le n (i + 1) gps date

/-- The entry loop of `parseDateFromExifIfd`: returns on the first date tag
found (even when its string fails the date pattern); a thrown read is caught
by the function's own `catch` and yields `null`. -/
def exifIfdDateScan (buf : List Nat) (ifdOffset tiffOffset : Nat) (le : Bool) :
    Nat → Nat → Option String
  | 0, _ => none
  | n + 1, i =>
    let entryOffset := ifdOffset + 2 + i * 12
    match getUint16? buf entryOffset le with
    | none => none
    | some tag =>
      if tag = 0x9003 ∨ tag = 0x9004 then
        match getUint32? buf (entryOffset + 8) le with
        | none => none
        | some valueOffset => readExifDate buf (tiffOffset + valueOffset)
      else exifIfdDateScan buf ifdOffset tiffOffset le n (i + 1)

/-- `parseDateFromExifIfd`: scans the EXIF sub-IFD for a date tag. -/
def parseDateFromExifIfd (buf : List Nat) (ifdOffset tiffOffset : Nat) (le : Bool) :
    Option String :=
  match getUint16? buf ifdOffset le with
  | none => none
  | some entryCount => exifIfdDateScan buf ifdOffset tiffOffset le entryCount 0

/-- The second entry loop of `parseIfd0`: follows an EXIF sub-IFD pointer
(0x8769) and takes its date only when one was found there (truthy) and no
date is held yet (falsy); a thrown read keeps the date held so far. -/
def ifd0ExifScan (buf : List Nat) (ifdOffset tiffOffset : Nat) (le : Bool) :
    Nat → Nat → Option String → Option String
  | 0, _, date => date
  | n + 1, i, date =>
    let entryOffset := ifdOffset + 2 + i * 12
    match getUint16? buf entryOffset le with
    | none => date
    | some tag =>
      if tag = 0x8769 then
        match getUint32? buf (entryOffset + 8) le with
        | none => date
        | some exifIfdOffset =>
          let exifDate := parseDateFromExifIfd buf (tiffOffset + exifIfdOffset) tiffOffset le
          if strTruthy exifDate && !strTruthy date then
            ifd0ExifScan buf ifdOffset tiffOffset le n (i + 1) exifDate
          else ifd0ExifScan buf ifdOffset tiffOffset le n (i + 1) date
      else ifd0ExifScan buf ifdOffset tiffOffset le n (i + 1) date

/-- `parseIfd0`: extracts the GPS IFD pointer and the capture date from
IFD0, probing the EXIF sub-IFD for a date only after the first loop
completed without a thrown read. -/
def parseIfd0 (buf : List Nat) (ifdOffset tiffOffset : Nat) (le : Bool) :
    Option Nat × Option String :=
  match getUint16? buf ifdOffset le with
  | none => (none, none)
  | some entryCount =>
    match ifd0Scan buf ifdOffset tiffOffset le entryCount 0 none none with
    | ((gps, date), true) => (gps, date)
    | ((gps, date), false) =>
      (gps, ifd0ExifScan buf ifdOffset tiffOffset le entryCount 0 date)

/-- The TIFF walk of `parseExifData` after the endianness was selected:
verify the 0x002A magic, resolve IFD0, take the date when truthy (non-null
and non-empty), and parse the GPS IFD when its pointer is truthy (non-null
and nonzero). -/
def parseTiffBody (buf : List Nat) (tiffOffset : Nat) (littleEndian : Bool) : ExifData :=
  match getUint16? buf (tiffOffset + 2) littleEndian with
  | none => allAbsent
  | some magic =>
    if magic ≠ 0x002a then allAbsent
    else
      match getUint32? buf (tiffOffset + 4) littleEndian with
      | none => allAbsent
      | some ifd0Offset =>
        let r := parseIfd0 buf (tiffOffset + ifd0Offset) tiffOffset littleEndian
        let gps : ExifData :=
          match r.1 with
          | some o => if o ≠ 0 then parseGpsIfd buf (tiffOffset + o) tiffOffset littleEndian
                      else allAbsent
          | none => allAbsent
        { latitude := gps.latitude, longitude := gps.longitude, bearing := gps.bearing,
          dateTaken :=
            (match r.2 with
             | some d => if d = "" then none else some d
             | none => none) }

/-- `parseExifData`: reads the byte-order marker (little-endian exactly when
it equals 0x4949 `'II'`; any other value, `'MM'` included, selects
big-endian) and walks the TIFF structure.  The `maxLength` argument is the
APP1 segment length minus 8 passed by the caller; the source never reads
it. -/
def parseExifData (buf : List Nat) (tiffOffset : Nat) (maxLength : Int) : ExifData :=
  match getUint16? buf tiffOffset false with
  | none => allAbsent
  | some byteOrder => parseTiffBody buf tiffOffset (byteOrder == 0x4949)

/-- The APP1-hunting `while` loop of `extractExifData`, with explicit fuel:
every iteration advances `offset` by at least 2, so `buf.length` iterations
always suffice and the fuel never runs out on the guard's range.  A `none`
read maps to `allAbsent` exactly as the enclosing `catch` does. -/
def scanSegments (buf : List Nat) : Nat → Nat → ExifData
  | 0, _ => allAbsent
  | n + 1, offset =>
    if offset < buf.length - 4 then
      match getUint16? buf offset false with
      | none => allAbsent
      | some marker =>
        if marker = 0xffe1 then
          match getUint16? buf (offset + 2) false with
          | none => allAbsent
          | some segLength =>
            match getUint8? buf (offset + 4), getUint8? buf (offset + 5),
                getUint8? buf (offset + 6), getUint8? buf (offset + 7),
                getUint8? buf (offset + 8), getUint8? buf (offset + 9) with
            | some h0, some h1, some h2, some h3, some h4, some h5 =>
              if h0 = 0x45 ∧ h1 = 0x78 ∧ h2 = 0x69 ∧ h3 = 0x66 ∧ h4 = 0 ∧ h5 = 0 then
                parseExifData buf (offset + 10) ((segLength : Int) - 8)
              else scanSegments buf n (offset + 4)
            | _, _, _, _, _, _ => allAbsent
        else if marker &&& 0xff00 = 0xff00 then
          match getUint16? buf (offset + 2) false with
          | none => allAbsent
          | some segLength => scanSegments buf n (offset + 2 + segLength)
        else allAbsent
    else allAbsent

/-- Character-list test that `s` starts with `p`: JS
`String.prototype.startsWith` over the code points of the two strings. -/
def listStartsWith : List Char → List Char → Bool
  | _, [] => true
  | [], _ :: _ => false
  | c :: s, d :: p => c == d && listStartsWith s p

/-- JS `String.prototype.startsWith`. -/
def jsStartsWith (s p : String) : Bool := listStartsWith s.data p.data

/-- JS `String.prototype.endsWith`: `s` ends with `p` exactly when the
reversed `s` starts with the reversed `p`. -/
def jsEndsWith (s p : String) : Bool := listStartsWith s.data.reverse p.data.reverse

/-- ASCII lowercasing of one character, the fragment of JS `toLowerCase`
exercised by filename extensions. -/
def charToLower (c : Char) : Char :=
  if 65 ≤ c.toNat ∧ c.toNat ≤ 90 then Char.ofNat (c.toNat + 32) else c

/-- JS `String.prototype.toLowerCase` (ASCII range). -/
def jsToLower (s : String) : String := String.mk (s.data.map charToLower)

/-- `extractExifData`: the JPEG gate (MIME type starting with `image/jpeg`,
or lowercased filename ending in `.jpg`), the 0xFFD8 start-of-image check,
and the segment scan.  Total: every path of the source either returns the
result object or throws into the `catch` that returns it. -/
def extractExifData (file : FileModel) : ExifData :=
  if !(jsStartsWith file.type "image/jpeg") && !(jsEndsWith (jsToLower file.name) ".jpg") then
    allAbsent
  else
    match getUint16? file.bytes 0 false with
    | none => allAbsent
    | some soi =>
      if soi ≠ 0xffd8 then allAbsent
      else scanSegments file.bytes file.bytes.length 2

/-- A minimal JPEG byte stream: SOI, one APP1/EXIF segment whose declared
length field is only 8 (so the declared payload ends at byte 12), and a
little-endian TIFF whose IFD0 holds a DateTimeOriginal tag (value at byte
46) and a GPS IFD pointer; the GPS IFD (byte 65) holds a latitude reference
`'N'`, a 3-rational latitude of 43 deg 39 min 4.99 sec (data at byte 103), an
image direction of 400/1 (data at byte 127), and no longitude tags. -/
def jpegBytes : List Nat :=
  [0xff, 0xd8,
   0xff, 0xe1,
   0x00, 0x08,
   0x45, 0x78, 0x69, 0x66, 0x00, 0x00,
   0x49, 0x49,
   0x2a, 0x00,
   0x08, 0x00, 0x00, 0x00,
   0x02, 0x00,
   0x03, 0x90, 0x02, 0x00, 0x14, 0x00, 0x00, 0x00, 0x22, 0x00, 0x00, 0x00,
   0x25, 0x88, 0x04, 0x00, 0x01, 0x00, 0x00, 0x00, 0x35, 0x00, 0x00, 0x00,
   50, 48, 50, 52, 58, 48, 54, 58, 49, 53, 32, 49, 52, 58, 51, 48, 58, 48, 48,
   0x03, 0x00,
   0x01, 0x00, 0x02, 0x00, 0x02, 0x00, 0x00, 0x00, 0x4e, 0x00, 0x00, 0x00,
   0x02, 0x00, 0x05, 0x00, 0x03, 0x00, 0x00, 0x00, 0x5b, 0x00, 0x00, 0x00,
   0x11, 0x00, 0x05, 0x00, 0x01, 0x00, 0x00, 0x00, 0x73, 0x00, 0x00, 0x00,
   0x2b, 0x00, 0x00, 0x00, 0x01, 0x00, 0x00, 0x00,
   0x27, 0x00, 0x00, 0x00, 0x01, 0x00, 0x00, 0x00,
   0xf3, 0x01, 0x00, 0x00, 0x64, 0x00, 0x00, 0x00,
   0x90, 0x01, 0x00, 0x00, 0x01, 0x00, 0x00, 0x00]

/-- The minimal JPEG wrapped as an uploaded file with a `.jpg` name. -/
def jpegFile : FileModel :=
  { name := "photo.jpg", type := "image/jpeg", bytes := jpegBytes }

/-- A standalone GPS IFD (both `ifdOffset` and `tiffOffset` 0, little
endian): latitude reference `'N'` and a 3-rational latitude, no longitude
tags at all. -/
def gpsLatOnlyBuf : List Nat :=
  [0x02, 0x00,
   0x01, 0x00, 0x02, 0x00, 0x02, 0x00, 0x00, 0x00, 0x4e, 0x00, 0x00, 0x00,
   0x02, 0x00, 0x05, 0x00, 0x03, 0x00, 0x00, 0x00, 0x1a, 0x00, 0x00, 0x00,
   0x2b, 0x00, 0x00, 0x00, 0x01, 0x00, 0x00, 0x00,
   0x27, 0x00, 0x00, 0x00, 0x01, 0x00, 0x00, 0x00,
   0xf3, 0x01, 0x00, 0x00, 0x64, 0x00, 0x00, 0x00]

/-- A standalone GPS IFD holding only longitude data: reference `'W'` and a
3-rational longitude of 79 deg 20 min 49.48 sec. -/
def gpsLngOnlyBuf : List Nat :=
  [0x02, 0x00,
   0x03, 0x00, 0x02, 0x00, 0x02, 0x00, 0x00, 0x00, 0x57, 0x00, 0x00, 0x00,
   0x04, 0x00, 0x05, 0x00, 0x03, 0x00, 0x00, 0x00, 0x1a, 0x00, 0x00, 0x00,
   0x4f, 0x00, 0x00, 0x00, 0x01, 0x00, 0x00, 0x00,
   0x14, 0x00, 0x00, 0x00, 0x01, 0x00, 0x00, 0x00,
   0x54, 0x13, 0x00, 0x00, 0x64, 0x00, 0x00, 0x00]

/-- The browser events `stripExifData`'s promise executor reacts to: whether
the `Image` fires `onload` (the source can be decoded), whether
`canvas.getContext` returns a context, and the blob `canvas.toBlob` delivers
(`none` models the encoder producing no output). -/
structure StripEnv where
  decodeOk : Bool
  ctxAvailable : Bool
  encodedBlob : Option (List Nat)
deriving Repr, DecidableEq

/-- The settlement of the promise returned by `stripExifData`. -/
inductive StripOutcome where
  | rejected (msg : String)
  | resolved (f : FileModel)
deriving Repr, DecidableEq

/-- `stripExifData`'s promise executor as a function of the browser
environment: `onerror` rejects, a missing 2d context rejects, a `null` blob
rejects, and the only `resolve` call wraps the encoder's blob (never the
input file's bytes) in a new `image/jpeg` file keeping the input's name. -/
def stripExifData (file : FileModel) (env : StripEnv) : StripOutcome :=
  if !env.decodeOk then .rejected "Failed to load image"
  else if !env.ctxAvailable then .rejected "Failed to get canvas context"
  else
    match env.encodedBlob with
    | none => .rejected "Failed to create blob"
    | some blobBytes => .resolved { name := file.name, type := "image/jpeg", bytes := blobBytes }

/-- JS `%` (remainder, sign of the dividend): the quotient is truncated
toward zero. -/
noncomputable def jsTrunc (x : ℝ) : ℤ := if 0 ≤ x then ⌊x⌋ else ⌈x⌉

/-- JS `a % b` on numbers: `a - b * trunc (a / b)`. -/
noncomputable def jsMod (a b : ℝ) : ℝ := a - b * jsTrunc (a / b)

/-- JS `Math.atan2 y x`: the argument of the point `(x, y)`, in `(-π, π]`,
with `atan2 0 0 = 0`. -/
noncomputable def atan2 (y x : ℝ) : ℝ := Complex.arg ⟨x, y⟩

/-- `calculateBearing` from `PhotoMarker.svelte`: spherical forward azimuth
between two decimal-degree coordinate pairs, normalized by
`(bearing + 360) % 360`. -/
noncomputable def calculateBearing (lat1 lng1 lat2 lng2 : ℝ) : ℝ :=
  let dLng := (lng2 - lng1) * Real.pi / 180
  let lat1Rad := lat1 * Real.pi / 180
  let lat2Rad := lat2 * Real.pi / 180
  let y := Real.sin dLng * Real.cos lat2Rad
  let x := Real.cos lat1Rad * Real.sin lat2Rad -
    Real.sin lat1Rad * Real.cos lat2Rad * Real.cos dLng
  let bearing := atan2 y x * 180 / Real.pi
  jsMod (bearing + 360) 360

/-- JS `Math.round`: round half toward positive infinity. -/
def jsRound (x : ℚ) : ℤ := ⌊x + 1 / 2⌋

/-- The stored photo row as far as `getBearingLabel` reads it: a nullable
bearing. -/
structure PhotoRow where
  bearing : Option ℚ
deriving Repr, DecidableEq

/-- `getBearingLabel` from `photo.entity.ts`: `null` bearing gives `null`;
otherwise `Math.round(bearing / 45) % 8` (JS truncated remainder) indexes
the eight cardinal labels, and an out-of-range JS array access is
`undefined` (`none`). -/
def getBearingLabel (photo : PhotoRow) : Option String :=
  match photo.bearing with
  | none => none
  | some b =>
    let directions : List String := ["N", "NE", "E", "SE", "S", "SW", "W", "NW"]
    let index : ℤ := Int.tmod (jsRound (b / 45)) 8
    if 0 ≤ index then directions.get? index.toNat else none

/-- A TIFF block (at offset 0) whose byte-order marker is 0x0000 — neither
`'II'` nor `'MM'` — followed by a big-endian magic 0x002A, an IFD0 with one
DateTimeOriginal entry, and the date string at byte 22. -/
def badBomBuf : List Nat :=
  [0x00, 0x00,
   0x00, 0x2a,
   0x00, 0x00, 0x00, 0x08,
   0x00, 0x01,
   0x90, 0x03, 0x00, 0x02, 0x00, 0x00, 0x00, 0x14, 0x00, 0x00, 0x00, 0x16,
   50, 48, 50, 52, 58, 48, 54, 58, 49, 53, 32, 49, 52, 58, 51, 48, 58, 48, 48]

/-- Claim C7: `gpsToDecimal` negates exactly under the `'S'` and `'W'`
references and otherwise returns `d + m/60 + s/3600` with no rounding, so
for non-negative GPS rationals the southern value is the negation of the
northern one (likewise west/east) and the magnitude is `d + m/60 + s/3600`
for each of the four references. -/
theorem gpsToDecimal_sign_and_magnitude (d m s : ℚ) (hd : 0 ≤ d) (hm : 0 ≤ m) (hs : 0 ≤ s) :
    gpsToDecimal d m s "S" = -gpsToDecimal d m s "N" ∧
    gpsToDecimal d m s "W" = -gpsToDecimal d m s "E" ∧
    ∀ ref, ref ∈ (["N", "S", "E", "W"] : List String) →
      |gpsToDecimal d m s ref| = d + m / 60 + s / 3600 := by
  have hpos : 0 ≤ d + m / 60 + s / 3600 := by positivity
  have habs : |d + m / 60 + s / 3600| = d + m / 60 + s / 3600 := abs_of_nonneg hpos
  have hS : gpsToDecimal d m s "S" = -(d + m / 60 + s / 3600) := by
    simp only [gpsToDecimal]; rw [if_pos (Or.inl trivial)]
  have hW : gpsToDecimal d m s "W" = -(d + m / 60 + s / 3600) := by
    simp only [gpsToDecimal]; rw [if_pos (Or.inr trivial)]
  have hN : gpsToDecimal d m s "N" = d + m / 60 + s / 3600 := by
    simp only [gpsToDecimal]; rw [if_neg (by decide)]
  have hE : gpsToDecimal d m s "E" = d + m / 60 + s / 3600 := by
    simp only [gpsToDecimal]; rw [if_neg (by decide)]
  refine ⟨by rw [hS, hN], by rw [hW, hE], ?_⟩
  intro ref href
  fin_cases href
  · rw [hN]; exact habs
  · rw [hS, abs_neg]; exact habs
  · rw [hE]; exact habs
  · rw [hW, abs_neg]; exact habs

/-- Witness for C7 at the latitude 43 deg 39 min 4.99 sec. -/
theorem gpsToDecimal_sign_and_magnitude_witness :
    gpsToDecimal 43 39 (499 / 100) "S" = -gpsToDecimal 43 39 (499 / 100) "N" :=
  (gpsToDecimal_sign_and_magnitude 43 39 (499 / 100) (by norm_num) (by norm_num)
    (by norm_num)).1

/-- Claim C6: every failing browser step (decode failure, missing canvas
context, encoder delivering no blob) makes `stripExifData` reject with an
error, and a resolved file always carries the encoder's blob bytes — never
a pass-through of the input's bytes — under the `image/jpeg` type. -/
theorem stripExifData_failure_rejects (file : FileModel) (env : StripEnv) :
    ((env.decodeOk = false ∨ env.ctxAvailable = false ∨ env.encodedBlob = none) →
      ∃ msg, stripExifData file env = .rejected msg) ∧
    (∀ f2, stripExifData file env = .resolved f2 →
      env.encodedBlob = some f2.bytes ∧ f2.name = file.name ∧ f2.type = "image/jpeg") := by
  rcases env with ⟨doc, ctx, blob⟩
  unfold stripExifData
  cases doc <;> cases ctx <;> rcases blob with _ | bb <;> simp

/-- Witness for C6: the encoder producing no blob rejects. -/
theorem stripExifData_failure_rejects_witness :
    ∃ msg, stripExifData jpegFile ⟨true, true, none⟩ = .rejected msg :=
  (stripExifData_failure_rejects jpegFile ⟨true, true, none⟩).1 (Or.inr (Or.inr rfl))

/-- The JS remainder of a non-negative dividend by a positive divisor lies
in `[0, b)`. -/
theorem jsMod_nonneg_lt (a b : ℝ) (ha : 0 ≤ a) (hb : 0 < b) :
    0 ≤ jsMod a b ∧ jsMod a b < b := by
  have hb0 : b ≠ 0 := ne_of_gt hb
  have hdiv : 0 ≤ a / b := div_nonneg ha hb.le
  have h1 : ((⌊a / b⌋ : ℤ) : ℝ) ≤ a / b := Int.floor_le _
  have h2 : a / b < ⌊a / b⌋ + 1 := Int.lt_floor_add_one _
  have h3 : a / b * b = a := div_mul_cancel₀ a hb0
  unfold jsMod jsTrunc
  rw [if_pos hdiv]
  constructor <;> nlinarith [h1, h2, h3, hb]

/-- `jsMod b b = 0` for positive `b`. -/
theorem jsMod_self (b : ℝ) (hb : 0 < b) : jsMod b b = 0 := by
  have hb0 : b ≠ 0 := ne_of_gt hb
  unfold jsMod jsTrunc
  rw [div_self hb0, if_pos (by norm_num : (0 : ℝ) ≤ 1), Int.floor_one]
  push_cast
  ring

/-- The azimuth-plus-normalization core of `calculateBearing` lands in
`[0, 360)` because `atan2` lands in `(-π, π]`. -/
theorem bearing_normalized_range (y x : ℝ) :
    0 ≤ jsMod (atan2 y x * 180 / Real.pi + 360) 360 ∧
    jsMod (atan2 y x * 180 / Real.pi + 360) 360 < 360 := by
  have hpi : 0 < Real.pi := Real.pi_pos
  have h1 : -Real.pi < atan2 y x := Complex.neg_pi_lt_arg _
  have hlow : (-180 : ℝ) ≤ atan2 y x * 180 / Real.pi := by
    rw [le_div_iff₀ hpi]
    nlinarith [h1]
  exact jsMod_nonneg_lt _ _ (by linarith) (by norm_num)

/-- Claim C8: `calculateBearing` always returns a value in `[0, 360)`, and
on an identical origin and target (the zero-vector degenerate case,
`Math.atan2 0 0 = 0` in JS and `Complex.arg 0 = 0` here) it returns 0. -/
theorem calculateBearing_range_and_degenerate (lat1 lng1 lat2 lng2 : ℝ) :
    (0 ≤ calculateBearing lat1 lng1 lat2 lng2 ∧ calculateBearing lat1 lng1 lat2 lng2 < 360) ∧
    calculateBearing lat1 lng1 lat1 lng1 = 0 := by
  constructor
  · simp only [calculateBearing]
    exact bearing_normalized_range _ _
  · simp only [calculateBearing, sub_self, zero_mul, zero_div, Real.sin_zero, Real.cos_zero,
      mul_one]
    have hx : Real.cos (lat1 * Real.pi / 180) * Real.sin (lat1 * Real.pi / 180) -
        Real.sin (lat1 * Real.pi / 180) * Real.cos (lat1 * Real.pi / 180) = 0 := by ring
    rw [hx]
    have hz : atan2 0 0 = 0 := by
      unfold atan2
      have : (⟨0, 0⟩ : ℂ) = 0 := rfl
      rw [this, Complex.arg_zero]
    rw [hz, zero_mul, zero_div, zero_add]
    exact jsMod_self 360 (by norm_num)

/-- Claim C3: extraction is total by construction (every throwing read is an
explicit `Option` branch landing in the `catch`'s `allAbsent`), and a file
declared `image/jpeg` whose first two bytes are not the 0xFFD8 start-of-image
marker (including a buffer too short to read them) yields the all-absent
record. -/
theorem extractExifData_bad_magic_all_absent (f : FileModel)
    (hjpeg : jsStartsWith f.type "image/jpeg" = true)
    (hmagic : getUint16? f.bytes 0 false ≠ some 0xffd8) :
    extractExifData f = allAbsent := by
  unfold extractExifData
  rw [hjpeg]
  simp only [Bool.not_true, Bool.false_and, Bool.false_eq_true, if_false]
  rcases hg : getUint16? f.bytes 0 false with _ | soi
  · rfl
  · have hne : soi ≠ 0xffd8 := by
      intro e
      exact hmagic (by rw [hg, e])
    dsimp only
    rw [if_pos hne]

/-- Witness for C3: four bytes that are not a JPEG, declared `image/jpeg`. -/
theorem extractExifData_bad_magic_all_absent_witness :
    extractExifData { name := "x.bin", type := "image/jpeg", bytes := [1, 2, 3, 4] } =
      allAbsent :=
  extractExifData_bad_magic_all_absent _ (by decide) (by decide)

/-- Claim C4 (amended): the byte-order marker is not validated — 0x4949
(`'II'`) selects little-endian and every other value, 0x4D4D (`'MM'`)
included, selects big-endian; the walk then proceeds either way, failing
only on the later TIFF-magic check. -/
theorem parseExifData_endianness_selection (buf : List Nat) (t : Nat) (m : Int) (bo : Nat)
    (h : getUint16? buf t false = some bo) :
    (bo = 0x4949 → parseExifData buf t m = parseTiffBody buf t true) ∧
    (bo ≠ 0x4949 → parseExifData buf t m = parseTiffBody buf t false) := by
  constructor <;> intro hbo <;> unfold parseExifData <;> rw [h] <;> dsimp only
  · rw [beq_iff_eq.mpr hbo]
  · rw [beq_eq_false_iff_ne.mpr hbo]

/-- Witness for C4: the 0x0000 byte-order marker selects big-endian. -/
theorem parseExifData_endianness_selection_witness :
    parseExifData badBomBuf 0 0 = parseTiffBody badBomBuf 0 false :=
  (parseExifData_endianness_selection badBomBuf 0 0 0 (by decide)).2 (by decide)

/-- Claim C5 (amended): when the declared MIME type does not start with
`image/jpeg` and the lowercased filename does not end in `.jpg`, extraction
returns all-absent for every byte content — the bytes are never consulted.
A `.jpeg` filename alone does not pass this gate. -/
theorem extractExifData_jpeg_gate (name ty : String) (bytes : List Nat)
    (h1 : jsStartsWith ty "image/jpeg" = false)
    (h2 : jsEndsWith (jsToLower name) ".jpg" = false) :
    extractExifData { name := name, type := ty, bytes := bytes } = allAbsent := by
  unfold extractExifData
  rw [h1, h2]
  rfl

/-- Every bearing the GPS entry loop writes is a quotient of two `Nat`
casts, hence non-negative; the invariant survives every branch, including a
thrown read (which returns the state accumulated so far). -/
theorem gpsScan_bearing_nonneg (buf : List Nat) (io tOff : Nat) (le : Bool) :
    ∀ (n i : Nat) (s : GpsScanState), (∀ q, s.bearing = some q → 0 ≤ q) →
      ∀ q, (gpsScan buf io tOff le n i s).1.bearing = some q → 0 ≤ q := by
  intro n
  induction n with
  | zero =>
    intro i s hs q hq
    exact hs q hq
  | succ n ih =>
    intro i s hs q hq
    rw [gpsScan] at hq
    split at hq
    · split_ifs at hq with ht1 ht2 ht3 ht4 ht5
      · split at hq
        · exact hs q hq
        · refine ih (i + 1) _ ?_ q hq
          intro q2 hq2
          exact hs q2 hq2
      · split at hq
        · exact hs q hq
        · refine ih (i + 1) _ ?_ q hq
          intro q2 hq2
          exact hs q2 hq2
      · split at hq
        · exact hs q hq
        · split at hq
          · exact hs q hq
          · refine ih (i + 1) _ ?_ q hq
            intro q2 hq2
            exact hs q2 hq2
      · split at hq
        · exact hs q hq
        · split at hq
          · exact hs q hq
          · refine ih (i + 1) _ ?_ q hq
            intro q2 hq2
            exact hs q2 hq2
      · split at hq
        · exact hs q hq
        · split at hq
          · split at hq
            · refine ih (i + 1) _ ?_ q hq
              intro q2 hq2
              cases hq2
              positivity
            · refine ih (i + 1) _ ?_ q hq
              intro q2 hq2
              exact hs q2 hq2
          · exact hs q hq
      · refine ih (i + 1) _ ?_ q hq
        intro q2 hq2
        exact hs q2 hq2
    · exact hs q hq

/-- `parseGpsIfd` only reports a bearing the loop wrote, so it is
non-negative. -/
theorem parseGpsIfd_bearing_nonneg (buf : List Nat) (io tOff : Nat) (le : Bool) (q : ℚ)
    (h : (parseGpsIfd buf io tOff le).bearing = some q) : 0 ≤ q := by
  unfold parseGpsIfd at h
  split at h
  · exact absurd h (by simp [allAbsent])
  · rename_i entryCount heq
    split at h <;>
      rename_i s hflag <;>
      dsimp only at h <;>
      exact gpsScan_bearing_nonneg buf io tOff le entryCount 0 ⟨none, none, none, none, none⟩
        (fun q2 hq2 => by cases hq2) q (by rw [hflag]; exact h)

/-- The TIFF body's bearing comes from `parseGpsIfd` (or is absent). -/
theorem parseTiffBody_bearing_nonneg (buf : List Nat) (t : Nat) (le : Bool) (q : ℚ)
    (h : (parseTiffBody buf t le).bearing = some q) : 0 ≤ q := by
  simp only [parseTiffBody] at h
  split at h
  · exact absurd h (by simp [allAbsent])
  · split_ifs at h with hmag
    · exact absurd h (by simp [allAbsent])
    · split at h
      · exact absurd h (by simp [allAbsent])
      · dsimp only at h
        split at h
        · split_ifs at h with ho
          · exact parseGpsIfd_bearing_nonneg _ _ _ _ q h
          · exact absurd h (by simp [allAbsent])
        · exact absurd h (by simp [allAbsent])

/-- `parseExifData`'s bearing comes from the TIFF body (or is absent). -/
theorem parseExifData_bearing_nonneg (buf : List Nat) (t : Nat) (m : Int) (q : ℚ)
    (h : (parseExifData buf t m).bearing = some q) : 0 ≤ q := by
  unfold parseExifData at h
  split at h
  · exact absurd h (by simp [allAbsent])
  · exact parseTiffBody_bearing_nonneg _ _ _ q h

/-- The segment scan's bearing comes from `parseExifData` (or is absent). -/
theorem scanSegments_bearing_nonneg (buf : List Nat) :
    ∀ (n offset : Nat) (q : ℚ), (scanSegments buf n offset).bearing = some q → 0 ≤ q := by
  intro n
  induction n with
  | zero =>
    intro offset q h
    exact absurd h (by simp [scanSegments, allAbsent])
  | succ n ih =>
    intro offset q h
    rw [scanSegments] at h
    split_ifs at h with hguard
    · split at h
      · exact absurd h (by simp [allAbsent])
      · split_ifs at h with hm1 hm2
        · split at h
          · exact absurd h (by simp [allAbsent])
          · split at h
            · split_ifs at h with hhdr
              · exact parseExifData_bearing_nonneg _ _ _ q h
              · exact ih (offset + 4) q h
            · exact absurd h (by simp [allAbsent])
        · split at h
          · exact absurd h (by simp [allAbsent])
          · exact ih _ q h
        · exact absurd h (by simp [allAbsent])
    · exact absurd h (by simp [allAbsent])

/-- Claim C2 (amended): a present bearing is always non-negative — it is the
quotient of two unsigned 32-bit reads with a nonzero denominator — but no
upper bound (in particular none below 360) is enforced. -/
theorem extractExifData_bearing_nonneg (file : FileModel) (q : ℚ)
    (h : (extractExifData file).bearing = some q) : 0 ≤ q := by
  unfold extractExifData at h
  split_ifs at h with hgate
  · exact absurd h (by simp [allAbsent])
  · split at h
    · exact absurd h (by simp [allAbsent])
    · split_ifs at h with hsoi
      · exact absurd h (by simp [allAbsent])
      · exact scanSegments_bearing_nonneg _ _ _ q h

attribute [local semireducible] Rat.mul Rat.add Rat.sub Rat.inv

set_option maxRecDepth 8000

/-- Claim C9: `getBearingLabel` is `round(bearing / 45) mod 8` indexing the
eight cardinal labels: 0 maps to `N`, 45 to `NE`, 359 rounds to 8 and wraps
to `N`; in general, for a non-negative bearing, the result is the list
lookup at `round(bearing / 45) % 8`. -/
theorem getBearingLabel_round_mod8 :
    getBearingLabel { bearing := some 0 } = some "N" ∧
    getBearingLabel { bearing := some 45 } = some "NE" ∧
    getBearingLabel { bearing := some 359 } = some "N" ∧
    ∀ b : ℚ, 0 ≤ b →
      getBearingLabel { bearing := some b } =
        (["N", "NE", "E", "SE", "S", "SW", "W", "NW"] : List String).get?
          ((jsRound (b / 45)).toNat % 8) := by
  refine ⟨by decide, by decide, by decide, ?_⟩
  intro b hb
  simp only [getBearingLabel]
  have hr : 0 ≤ jsRound (b / 45) := by
    unfold jsRound
    exact Int.le_floor.mpr (by positivity)
  have htm : Int.tmod (jsRound (b / 45)) 8 = ((jsRound (b / 45)).toNat % 8 : ℕ) := by
    rw [Int.tmod_eq_emod hr (by norm_num)]
    omega
  rw [htm, if_pos (Int.natCast_nonneg _), Int.toNat_natCast]

/-- Witness for C9 at bearing 90. -/
theorem getBearingLabel_round_mod8_witness :
    getBearingLabel { bearing := some 90 } = some "E" := by
  rw [getBearingLabel_round_mod8.2.2.2 90 (by norm_num)]
  decide

/-- Claim C1 (counterexample): on a JPEG whose GPS IFD carries a latitude
reference and 3-rational latitude but no longitude tag, extraction returns
latitude present with longitude absent — a partial result, contradicting the
joint-absence policy. -/
theorem latitude_without_longitude_partial :
    (extractExifData jpegFile).latitude ≠ none ∧
    (extractExifData jpegFile).longitude = none := by
  constructor
  · decide
  · decide

/-- Claim C1 (amended): latitude and longitude are derived independently per
axis — each is present exactly when its own reference and 3-rational value
were captured — so one-sided GPS IFDs produce one-sided results in either
direction. -/
theorem gps_axes_independent :
    parseGpsIfd gpsLatOnlyBuf 0 0 true =
      { latitude := some (15714499 / 360000), longitude := none, bearing := none,
        dateTaken := none } ∧
    parseGpsIfd gpsLngOnlyBuf 0 0 true =
      { latitude := none, longitude := some (-7141237 / 90000), bearing := none,
        dateTaken := none } := by
  constructor
  · decide
  · decide

/-- Claim C2 (counterexample): a GPS image-direction rational of 400/1 is
returned as a bearing of 400, which is not less than 360. -/
theorem bearing_exceeds_360 :
    (extractExifData jpegFile).bearing = some 400 ∧ ¬ ((400 : ℚ) < 360) := by
  constructor
  · decide
  · norm_num

/-- Witness for C2 (amended) at the 400/1 direction rational. -/
theorem extractExifData_bearing_nonneg_witness :
    (extractExifData jpegFile).bearing = some 400 ∧ (0 : ℚ) ≤ 400 :=
  ⟨by decide, extractExifData_bearing_nonneg jpegFile 400 (by decide)⟩

/-- Claim C4 (counterexample): a byte-order marker of 0x0000 — neither
`'II'` nor `'MM'` — is not treated as a parse failure: the walk proceeds
big-endian and extracts a date, so the result is not all-absent. -/
theorem bom_not_validated :
    getUint16? badBomBuf 0 false = some 0 ∧ (0 : Nat) ≠ 0x4949 ∧ (0 : Nat) ≠ 0x4d4d ∧
    parseExifData badBomBuf 0 0 ≠ allAbsent := by
  refine ⟨by decide, by decide, by decide, by decide⟩

/-- Claim C5 (counterexample): the same JPEG bytes are parsed under a
`.jpg` name but not under a `.jpeg` name (with a non-JPEG MIME type), so
the claimed `.jpg`-or-`.jpeg` gate does not match the code. -/
theorem jpeg_extension_not_recognized :
    extractExifData { name := "photo.jpeg", type := "text/plain", bytes := jpegBytes } =
      allAbsent ∧
    extractExifData { name := "photo.jpg", type := "text/plain", bytes := jpegBytes } ≠
      allAbsent := by
  constructor
  · decide
  · decide

/-- Witness for C5 (amended): a `.jpeg` name with a non-JPEG MIME type is
rejected by the gate. -/
theorem extractExifData_jpeg_gate_witness :
    extractExifData { name := "photo.jpeg", type := "text/plain", bytes := jpegBytes } =
      allAbsent :=
  extractExifData_jpeg_gate "photo.jpeg" "text/plain" jpegBytes (by decide) (by decide)

/-- Claim C10: `parseExifData` never reads its `maxLength` argument, so the
walk is identical for any two segment lengths; concretely, the fixture's
APP1 segment declares length 8 (payload ending at byte 12) yet the date
string at byte 46 and the GPS data past byte 103 are still resolved, bounded
only by the buffer's end. -/
theorem parseExifData_ignores_maxLength :
    (∀ (buf : List Nat) (t : Nat) (m1 m2 : Int),
        parseExifData buf t m1 = parseExifData buf t m2) ∧
    extractExifData jpegFile =
      { latitude := some (15714499 / 360000), longitude := none, bearing := some 400,
        dateTaken := some "2024-06-15T14:30:00Z" } := by
  refine ⟨fun buf t m1 m2 => rfl, by decide⟩
